import Mathlib

/-!
Verification of the Duke-Backend incremental synchronization engine and the
face identity resolution pipeline. The definitions below are a shallow
embedding of `app/scheduler/generic_events_scheduler.py` (watermark
resolution, token pagination, batched posting) and of
`app/services/aws_services.py` (per-face identity resolution). Timestamps
are modelled in integer milliseconds; external HTTP and AWS calls are
modelled by explicit response scripts / oracles supplied as arguments.
-/

namespace DukeBackend

/-- One response from the vendor event-search endpoint, as consumed by
`fetch_events_with_token_pagination`: `ok` is true when the request
succeeded and parsed (no `raise_for_status` and no parse exception),
`events` is `result.events` (defaulting to `[]`), and `token` is the
optional continuation token `result.token`. -/
structure PageResponse (Ev : Type) where
  ok : Bool
  events : List Ev
  token : Option String
deriving DecidableEq

/-- The query parameters of one event-search request, mirroring the
`params` dict built by `fetch_events_with_token_pagination`. A field that
is absent from the dict is `none`. -/
structure SearchParams where
  queryType : String
  serverId : Option String
  session : Option String
  fromTime : Option Int
  toTime : Option Int
  limit : Option Nat
  token : Option String
deriving DecidableEq

/-- The initial `TIME_RANGE` params dict (generic_events_scheduler.py
lines 50-57): serverId, session, queryType, from, to, limit. -/
def initialParams (serverId sess : String) (fromTime toTime : Int) (lim : Nat) : SearchParams :=
  ⟨"TIME_RANGE", some serverId, some sess, some fromTime, some toTime, some lim, none⟩

/-- The continuation params dict (lines 78-83): session, queryType
`CONTINUE`, token — no serverId, no from/to/limit. -/
def contParams (sess tok : String) : SearchParams :=
  ⟨"CONTINUE", none, some sess, none, none, none, some tok⟩

variable {Ev : Type}

/-- The `while True` pagination loop of `fetch_events_with_token_pagination`
(lines 60-92). `req` is the current params dict; the script lists the
responses the environment returns, in order. Returns the trace of
(request, response-it-received) pairs together with the list of yielded
pages. A non-`ok` response corresponds to the `except` arms: the loop
breaks, yielding nothing from that response. A page is yielded only when
`events` is non-empty (`if events: yield events`). When a token is
present the loop continues with the continuation params; otherwise it
breaks. -/
def runFetch (sess : String) : SearchParams → List (PageResponse Ev) →
    List (SearchParams × PageResponse Ev) × List (List Ev)
  | _, [] => ([], [])
  | req, r :: rest =>
    if r.ok then
      match r.token with
      | some t =>
        let next := runFetch sess (contParams sess t) rest
        ((req, r) :: next.1, (if r.events.isEmpty then [] else [r.events]) ++ next.2)
      | none => ([(req, r)], if r.events.isEmpty then [] else [r.events])
    else ([(req, r)], [])

/-- `fetch_events_with_token_pagination(client, server_id, from_time,
to_time, limit)`: starts the loop from the initial `TIME_RANGE` request. -/
def fetch_events_with_token_pagination (serverId sess : String) (fromTime toTime : Int)
    (lim : Nat) (script : List (PageResponse Ev)) :
    List (SearchParams × PageResponse Ev) × List (List Ev) :=
  runFetch sess (initialParams serverId sess fromTime toTime lim) script

/-- Outcome of one `client.post(post_url, ...)` attempt for a page, as
observed by the job's `try`/`except` arms: a 2xx response whose JSON body
optionally carries a `stored_count` field, a `httpx.HTTPStatusError`
(non-2xx), or any other exception (transport / parse error). -/
inductive PostOutcome where
  | ok (storedCount : Option Nat)
  | httpError
  | otherError
deriving DecidableEq

/-- The per-run counters of the generic job:
`total_posted_count, total_failed_pages, page_number` (line 231). -/
structure RunStats where
  totalPosted : Nat
  failedPages : Nat
  pageNumber : Nat
deriving DecidableEq

/-- One iteration of the generic posting loop (lines 235-251): increment
`page_number`; skip an empty page; otherwise post it — on 2xx add
`response_data.get("stored_count", len(event_page))` to the total, and on
either exception arm increment `total_failed_pages`. -/
def generic_post_page (stats : RunStats) (page : List Ev) (outcome : PostOutcome) : RunStats :=
  if page.isEmpty then ⟨stats.totalPosted, stats.failedPages, stats.pageNumber + 1⟩
  else
    match outcome with
    | .ok sc => ⟨stats.totalPosted + sc.getD page.length, stats.failedPages, stats.pageNumber + 1⟩
    | .httpError => ⟨stats.totalPosted, stats.failedPages + 1, stats.pageNumber + 1⟩
    | .otherError => ⟨stats.totalPosted, stats.failedPages + 1, stats.pageNumber + 1⟩

/-- The whole generic posting loop over the pages the fetcher yielded,
each paired with the outcome its post attempt would get. Counters start
at `0, 0, 0` (line 231). -/
def generic_run (pages : List (List Ev × PostOutcome)) : RunStats :=
  pages.foldl (fun s pr => generic_post_page s pr.1 pr.2) ⟨0, 0, 0⟩

/-- `DEFAULT_BACKFILL_DAYS = 30` (line 30). -/
def DEFAULT_BACKFILL_DAYS : Nat := 30

/-- The default backfill window in milliseconds:
`timedelta(days=DEFAULT_BACKFILL_DAYS)`. -/
def defaultBackfillMs : Int := (DEFAULT_BACKFILL_DAYS : Int) * 86400000

/-- `timedelta(milliseconds=1)`, the buffer added to the watermark
(line 222). -/
def EPSILON_MS : Int := 1

/-- The window computation of `fetch_and_post_logic` (lines 193-229):
the start time is the manual override if configured, else the stored
watermark, else `now - DEFAULT_BACKFILL_DAYS`; a 1 ms buffer is added;
if the buffered start is `≥ now` the run is a no-op (`none`), else the
window is `(from_time_buffered, now)`. -/
def resolveWindow (manualOverride watermark : Option Int) (now : Int) : Option (Int × Int) :=
  let fromTime :=
    match manualOverride with
    | some m => m
    | none =>
      match watermark with
      | some w => w
      | none => now - defaultBackfillMs
  let buffered := fromTime + EPSILON_MS
  if buffered ≥ now then none else some (buffered, now)

/-- `API_PAGE_SIZE = 100` (line 28). -/
def API_PAGE_SIZE : Nat := 100

/-- The observable outcome of one invocation of the generic job:
aborted before any side effect (server enumeration or watermark query
failed), a no-op because the window is empty, or a completed run with the
issued search requests and the final counters. -/
inductive JobOutcome where
  | aborted
  | noWindow
  | ran (requests : List SearchParams) (stats : RunStats)
deriving DecidableEq

/-- `fetch_and_post_logic` (lines 162-261), composed from the pieces
above: `servers` is the server id extracted from `get_servers_service`
(`none` = any of the abort branches of lines 166-190), `wmarkQuery` is
the `latest-timestamp` lookup (`Except.error` = the exception arm of
line 215, `Except.ok none` = no stored watermark), `script` drives the
paginated fetch and `post` gives each posted page's outcome. -/
def fetch_and_post_logic (servers : Option String) (manualOverride : Option Int)
    (wmarkQuery : Except Unit (Option Int)) (now : Int) (sess : String)
    (script : List (PageResponse Ev)) (post : List Ev → PostOutcome) : JobOutcome :=
  match servers with
  | none => .aborted
  | some sid =>
    let runWindow : Option (Int × Int) → JobOutcome := fun w =>
      match w with
      | none => .noWindow
      | some (f, t) =>
        let r := fetch_events_with_token_pagination sid sess f t API_PAGE_SIZE script
        .ran (r.1.map Prod.fst) (generic_run (r.2.map (fun p => (p, post p))))
    match manualOverride with
    | some m => runWindow (resolveWindow (some m) none now)
    | none =>
      match wmarkQuery with
      | .error _ => .aborted
      | .ok wk => runWindow (resolveWindow none wk now)

/-- One raw appearance record as received by
`face_events_fetch_and_post_logic`: either not a dict at all (skipped at
line 354), or a dict whose `timestamp` field may be absent and whose
`deviceGid` field may be absent. Other payload fields are irrelevant to
transformation and are not modelled. -/
inductive RawAppearance where
  | nonDict
  | dict (timestamp : Option String) (deviceGid : Option String)
deriving DecidableEq

/-- The standardized event built by the transformation loop
(lines 363-372): type tag, timestamp, eventStartTime, originating server
id, and the `deviceGid` renamed to `cameraId`. -/
structure TransformedEvent where
  typeTag : String
  timestamp : String
  eventStartTime : String
  originatingServerId : String
  cameraId : Option String
deriving DecidableEq

/-- Python truthiness of an optional string value: `None` and the empty
string are falsy (`if not x` / `x or y`). -/
def truthyStr : Option String → Option String
  | none => none
  | some s => if s = "" then none else some s

/-- The per-record transformation of the face-events loop
(lines 353-372): non-dict elements are dropped, records with a falsy
`timestamp` are dropped, and surviving records are standardized. -/
def transformAppearance (serverId : String) : RawAppearance → Option TransformedEvent
  | .nonDict => none
  | .dict ts gid =>
    match truthyStr ts with
    | none => none
    | some s => some ⟨"CUSTOM_APPEARANCE", s, s, serverId, gid⟩

/-- One iteration of the face-events posting loop (lines 347-394) over a
fetched appearance page, threading the run counters and the list of POST
bodies actually sent to `/store-events`. The page counter increments
first; an empty page is skipped; a page whose transformation yields no
events is skipped with no POST; otherwise the transformed batch is
POSTed — on 2xx the total increases by `len(events_to_post)` (the
response's `stored_count` is deliberately ignored, lines 382-386), and on
either exception arm the failed-page counter increments. -/
def face_post_page (serverId : String) (acc : RunStats × List (List TransformedEvent))
    (page : List RawAppearance) (outcome : PostOutcome) :
    RunStats × List (List TransformedEvent) :=
  let stats := acc.1
  let n := stats.pageNumber + 1
  if page.isEmpty then (⟨stats.totalPosted, stats.failedPages, n⟩, acc.2)
  else
    let eventsToPost := page.filterMap (transformAppearance serverId)
    if eventsToPost.isEmpty then (⟨stats.totalPosted, stats.failedPages, n⟩, acc.2)
    else
      match outcome with
      | .ok _ => (⟨stats.totalPosted + eventsToPost.length, stats.failedPages, n⟩,
                  acc.2 ++ [eventsToPost])
      | .httpError => (⟨stats.totalPosted, stats.failedPages + 1, n⟩, acc.2 ++ [eventsToPost])
      | .otherError => (⟨stats.totalPosted, stats.failedPages + 1, n⟩, acc.2 ++ [eventsToPost])

/-- The face-events posting loop over all fetched pages (for one gender
descriptor), starting from zero counters and no POSTs issued. -/
def face_events_run (serverId : String) (pages : List (List RawAppearance × PostOutcome)) :
    RunStats × List (List TransformedEvent) :=
  pages.foldl (fun acc pr => face_post_page serverId acc pr.1 pr.2) (⟨0, 0, 0⟩, [])

/-- One entry of `FaceMatches` in a `SearchFacesByImage` response,
flattened to the fields read by `process_all_faces_in_image`
(lines 263-266): `Face.FaceId`, `Face.ImageId`, `Similarity`.
Similarity percentages are modelled as exact rationals. -/
structure FaceMatchRec where
  faceId : String
  imageId : Option String
  similarity : Rat
deriving DecidableEq

/-- A parsed `SearchFacesByImage` response: its `FaceMatches` list. -/
structure SearchResponseR where
  faceMatches : List FaceMatchRec
deriving DecidableEq

/-- One entry of `FaceRecords` in an `IndexFaces` response, flattened to
the fields read at lines 298-300 and 357-358: `Face.FaceId`,
`Face.ImageId`, `Face.Confidence`. -/
structure IndexedFaceRec where
  faceId : Option String
  imageId : Option String
  confidence : Option Rat
deriving DecidableEq

/-- A parsed `IndexFaces` response: its `FaceRecords` list. -/
structure IndexResponseR where
  faceRecords : List IndexedFaceRec
deriving DecidableEq

/-- Result of a helper that returns `(response, error)` pairs
(`search_faces_by_image`, `index_faces`): `ret resp err` is a normal
return — `resp` present on success, `err` present on a handled
`InvalidParameterException` — while `raised msg` is the re-raised
unhandled exception, caught by the per-face `except` (line 389). -/
inductive AwsCall (ρ : Type) where
  | ret (resp : Option ρ) (err : Option String)
  | raised (msg : String)
deriving DecidableEq

/-- The user document returned by `get_user_by_face_id_sync`; only its
`_id` field is read (line 274), and the field may be absent. -/
structure UserDoc where
  idField : Option String
deriving DecidableEq

/-- The three return shapes of `get_user_by_face_id_sync` (lines 128-159):
a user document, a failure message, or a clean 404 (not found). -/
inductive UserLookupRes where
  | found (doc : UserDoc)
  | lookupFailed (msg : String)
  | notFound
deriving DecidableEq

/-- The oracle answering the external calls one face's processing may
make: the `SearchFacesByImage` call, the Duke-Central user lookup, the
`IndexFaces` call, the three identity-creation steps (each a
`(bool, error)` pair exactly as the Python helpers return), and the
`uuid` generated for a new user. Only the calls the control flow reaches
are consulted. -/
structure FaceOracle where
  search : AwsCall SearchResponseR
  userLookup : UserLookupRes
  indexFacesCall : AwsCall IndexResponseR
  createUser : Bool × Option String
  associate : Bool × Option String
  centralCreate : Bool × Option String
  newUserId : String
deriving DecidableEq

/-- One detected face as read by the loop (line 224): its `Confidence`
attribute, absent meaning the `.get('Confidence', 0)` default applies. -/
structure FaceDetail where
  confidence : Option Rat
deriving DecidableEq

/-- The external calls a face's processing can perform, recorded in the
order they are made. -/
inductive ExtCall where
  | searchCall
  | lookupCall
  | indexCall
  | createUserCall
  | associateCall
  | centralCreateCall
deriving DecidableEq

/-- The structured per-face result dict: the `status` string plus the
optional `error_message`, `failure_reason`, `userId` and `faceId`
fields. (The echoed `rekognition_details`, human-readable `message` and
`face_info` payloads are not modelled.) -/
structure FaceResult where
  status : String
  errorMessage : Option String
  failureReason : Option String
  userId : Option String
  faceId : Option String
deriving DecidableEq

/-- Python `f"...{x}..."` rendering of an optional error string:
`None` prints as `"None"`. -/
def pyOptStr : Option String → String
  | none => "None"
  | some s => s

/-- The detection-confidence threshold of the gate at line 225. -/
def confThreshold : Rat := 90

/-- The first `FaceMatch` of a search response, when the response is
present and its `FaceMatches` list non-empty — the condition of
line 261. -/
def firstMatch : Option SearchResponseR → Option FaceMatchRec
  | none => none
  | some r => r.faceMatches.head?

/-- The first `FaceRecord` of an index response, when present and
non-empty — the condition of line 297. -/
def firstRecord : Option IndexResponseR → Option IndexedFaceRec
  | none => none
  | some r => r.faceRecords.head?

/-- The `failure_reason` of the `skipped_low_quality` result (line 374):
`index_error or search_error or "Unknown failure during search/index."`,
with Python `or` treating the empty string as falsy. -/
def lowQualityReason (indexErr searchErr : Option String) : String :=
  ((truthyStr indexErr).orElse (fun _ => truthyStr searchErr)).getD
    "Unknown failure during search/index."

/-- The body of the per-face loop of `process_all_faces_in_image`
(lines 222-395) for one detected face, given the oracle for its external
calls. Returns the result dict appended for this face together with the
trace of external calls performed, in order. Mirrors: the confidence
gate (line 225), the search + user-lookup match path (lines 254-290),
the index path (lines 292-385) with the three-step identity creation
(lines 302-366, including the `"Skipped due to ..."` markers and the
aggregated `error_detail` of lines 337-341), the missing-FaceId error
(line 369), the low-quality skip (lines 371-385), and the per-face
`except` arm (lines 389-395) for a re-raised search or index exception. -/
def process_single_face (d : FaceDetail) (o : FaceOracle) : FaceResult × List ExtCall :=
  if d.confidence.getD 0 < confThreshold then
    (⟨"skipped_low_confidence", none, none, none, none⟩, [])
  else
    match o.search with
    | .raised m => (⟨"error", some m, none, none, none⟩, [.searchCall])
    | .ret resp searchErr =>
      match firstMatch resp with
      | some fm =>
        match o.userLookup with
        | .found doc =>
          (⟨"matched", none, none, doc.idField, some fm.faceId⟩, [.searchCall, .lookupCall])
        | .lookupFailed uerr =>
          (⟨"error",
            some ("Found matching face " ++ fm.faceId ++ " but failed to look up user."),
            some uerr, none, none⟩, [.searchCall, .lookupCall])
        | .notFound =>
          (⟨"error",
            some ("Data inconsistency: FaceId " ++ fm.faceId ++ " has no user."),
            none, none, none⟩, [.searchCall, .lookupCall])
      | none =>
        match o.indexFacesCall with
        | .raised m => (⟨"error", some m, none, none, none⟩, [.searchCall, .indexCall])
        | .ret iresp indexErr =>
          match firstRecord iresp with
          | some rec =>
            match rec.faceId with
            | some fid =>
              let c := o.createUser
              let a := if c.1 then o.associate
                       else (false, some "Skipped due to user creation failure")
              let z := if a.1 then o.centralCreate
                       else (false, some "Skipped due to Rekognition failure")
              let calls := [ExtCall.searchCall, ExtCall.indexCall, ExtCall.createUserCall] ++
                (if c.1 then [ExtCall.associateCall] else []) ++
                (if a.1 then [ExtCall.centralCreateCall] else [])
              if c.1 && a.1 && z.1 then
                (⟨"indexed", none, none, some o.newUserId, some fid⟩, calls)
              else
                (⟨"error",
                  some ("Failed to create and associate new user for FaceId " ++ fid ++ "."),
                  some ("Rekognition CreateUser error: " ++ pyOptStr c.2 ++
                        ". Rekognition AssociateFaces error: " ++ pyOptStr a.2 ++
                        ". Central API CreateUser error: " ++ pyOptStr z.2 ++ "."),
                  none, none⟩, calls)
            | none =>
              (⟨"error", some "Indexing succeeded but no FaceId was returned.",
                none, none, none⟩, [.searchCall, .indexCall])
          | none =>
            (⟨"skipped_low_quality", none, some (lowQualityReason indexErr searchErr),
              none, none⟩, [.searchCall, .indexCall])

/-- `process_all_faces_in_image` (lines 192-397): `detect` is the
`DetectFaces` call (`Except.error` = a `ClientError`, line 202), pairing
each detected face with the oracle for its external calls; `decodeErr`
is `some msg` when Pillow cannot open the image bytes (line 215).
A detect failure or a corrupt image yields a single error record; zero
detected faces yield `[]`; otherwise each face yields exactly one
result. -/
def process_all_faces_in_image
    (detect : Except String (List (FaceDetail × FaceOracle)))
    (decodeErr : Option String) : List FaceResult :=
  match detect with
  | .error e =>
    [⟨"error", some ("DetectFaces API call failed: " ++ e), none, none, none⟩]
  | .ok faces =>
    if faces.isEmpty then []
    else
      match decodeErr with
      | some e => [⟨"error", some ("Image data is corrupt: " ++ e), none, none, none⟩]
      | none => faces.map (fun p => (process_single_face p.1 p.2).1)

/-- Specification-side predicate: did this post attempt fail (either
exception arm)? -/
def postFailed : PostOutcome → Bool
  | .ok _ => false
  | .httpError => true
  | .otherError => true

/-- Specification-side function: the number of events the generic loop
records as stored for one page — `0` for a skipped empty page or a
failed post, else the response's `stored_count` defaulting to the page
length. -/
def storedOf : List Ev × PostOutcome → Nat
  | (page, o) =>
    if page.isEmpty then 0
    else
      match o with
      | .ok sc => sc.getD page.length
      | .httpError => 0
      | .otherError => 0

/- ------------------------------------------------------------------ -/
/- Theorems                                                            -/
/- ------------------------------------------------------------------ -/

/-- Helper: the first trace entry of the pagination loop carries the
request it was started with. -/
theorem runFetch_head_req (sess : String) (req : SearchParams)
    (script : List (PageResponse Ev)) (p : SearchParams × PageResponse Ev)
    (h : (runFetch sess req script).1.head? = some p) : p.1 = req := by
  cases script with
  | nil => simp [runFetch] at h
  | cons r rest =>
    by_cases hok : r.ok
    · cases ht : r.token with
      | some t =>
        simp only [runFetch, hok, if_true, ht] at h
        simp at h
        rw [← h]
      | none =>
        simp only [runFetch, hok, if_true, ht] at h
        simp at h
        rw [← h]
    · simp only [runFetch, hok, if_false] at h
      simp at h
      rw [← h]

/-- Helper: along the pagination trace, each request after the first is
exactly the continuation params built from the token of the previous
response, and every request is either the initial one or a continuation
params dict. -/
theorem runFetch_trace_chain (sess : String) (script : List (PageResponse Ev)) :
    ∀ req : SearchParams,
      List.Chain' (fun a b => ∃ tok, a.2.token = some tok ∧ b.1 = contParams sess tok)
        (runFetch sess req script).1 ∧
      ∀ p ∈ (runFetch sess req script).1, p.1 = req ∨ ∃ tok, p.1 = contParams sess tok := by
  induction script with
  | nil => intro req; simp [runFetch]
  | cons r rest ih =>
    intro req
    by_cases hok : r.ok
    · cases ht : r.token with
      | some t =>
        have hsub := ih (contParams sess t)
        simp only [runFetch, hok, if_true, ht]
        constructor
        · rw [List.chain'_cons']
          refine ⟨?_, hsub.1⟩
          intro b hb
          refine ⟨t, ht, ?_⟩
          exact runFetch_head_req sess (contParams sess t) rest b (by simpa using hb)
        · intro p hp
          rcases List.mem_cons.mp hp with h | h
          · left; rw [h]
          · rcases hsub.2 p h with h1 | ⟨tok, h2⟩
            · right; exact ⟨t, h1⟩
            · right; exact ⟨tok, h2⟩
      | none =>
        simp only [runFetch, hok, if_true, ht]
        constructor
        · simp
        · intro p hp
          left
          simp at hp
          rw [hp]
    · simp only [runFetch, hok, if_false]
      constructor
      · simp
      · intro p hp
        left
        simp at hp
        rw [hp]

/-- C2 (counterexample): the claim says a page whose event list is empty
is still yielded as an empty list, so the mocked sequence
`P1(token=t1) → P2(token=t2) → P3(token=none)` should yield 3 pages even
when `P2` is empty. On the code, with `P1 = [1]`, `P2 = []`, `P3 = [2]`
the fetcher yields only `[[1], [2]]` — two pages, with no empty page in
the output. -/
theorem C2_counterexample :
    (fetch_events_with_token_pagination "srv" "sess" 0 10 100
        [⟨true, [1], some "t1"⟩, ⟨true, ([] : List Nat), some "t2"⟩,
         ⟨true, [2], none⟩]).2 = [[1], [2]] ∧
    ¬ (fetch_events_with_token_pagination "srv" "sess" 0 10 100
        [⟨true, ([1] : List Nat), some "t1"⟩, ⟨true, [], some "t2"⟩,
         ⟨true, [2], none⟩]).2.length = 3 := by
  constructor
  · rfl
  · decide

/-- C2 (amended): for the mocked response sequence
`P1(token=t1) → P2(token=t2) → P3(token=none)` the fetcher issues exactly
3 requests and then stops (any further scripted responses are never
requested), and it yields exactly the non-empty pages among `P1, P2, P3`,
in order; an empty page is skipped rather than yielded as an empty list,
but does not terminate the sequence — its token is still followed. -/
theorem C2_pagination_terminates_on_missing_token (sid sess : String) (f t : Int)
    (lim : Nat) (e1 e2 e3 : List Ev) (t1 t2 : String) (rest : List (PageResponse Ev)) :
    (fetch_events_with_token_pagination sid sess f t lim
        (⟨true, e1, some t1⟩ :: ⟨true, e2, some t2⟩ :: ⟨true, e3, none⟩ :: rest)).2 =
      (if e1.isEmpty then [] else [e1]) ++ (if e2.isEmpty then [] else [e2]) ++
        (if e3.isEmpty then [] else [e3]) ∧
    (fetch_events_with_token_pagination sid sess f t lim
        (⟨true, e1, some t1⟩ :: ⟨true, e2, some t2⟩ :: ⟨true, e3, none⟩ :: rest)).1.length = 3 := by
  constructor
  · simp [fetch_events_with_token_pagination, runFetch]
  · simp [fetch_events_with_token_pagination, runFetch]

/-- C3: the processing window is `(watermark + 1ms, now)`; with no
watermark the start falls back to `now` minus the 30-day default
backfill window (still buffered by 1ms); and whenever the buffered start
is at or past `now` (watermark `W ≥ now − ε`) the whole run returns the
no-op outcome — no fetch request and no post happen and no error is
reported. -/
theorem C3_watermark_window (w now : Int) :
    (w + EPSILON_MS < now →
      resolveWindow none (some w) now = some (w + EPSILON_MS, now)) ∧
    (resolveWindow none none now =
      some (now - defaultBackfillMs + EPSILON_MS, now) ∧ defaultBackfillMs = 2592000000) ∧
    (w ≥ now - EPSILON_MS →
      ∀ (sid sess : String) (script : List (PageResponse Ev)) (post : List Ev → PostOutcome),
        fetch_and_post_logic (some sid) none (Except.ok (some w)) now sess script post =
          JobOutcome.noWindow) := by
  refine ⟨?_, ⟨?_, rfl⟩, ?_⟩
  · intro h
    simp only [EPSILON_MS] at h
    simp only [resolveWindow, EPSILON_MS]
    rw [if_neg (by omega)]
  · simp only [resolveWindow, EPSILON_MS, defaultBackfillMs, DEFAULT_BACKFILL_DAYS]
    rw [if_neg (by omega)]
  · intro h sid sess script post
    simp only [EPSILON_MS] at h
    simp only [fetch_and_post_logic, resolveWindow, EPSILON_MS]
    rw [if_pos (by omega)]

/-- C3 witness: concrete instances — watermark 5 at time 100 gives the
window (6, 100); watermark 99 at time 100 (within 1ms of now) makes the
run a no-op. -/
theorem C3_watermark_window_witness :
    resolveWindow none (some 5) 100 = some (6, 100) ∧
    fetch_and_post_logic (some "srv") none (Except.ok (some 99)) 100 "sess"
      ([] : List (PageResponse Nat)) (fun _ => PostOutcome.ok none) = JobOutcome.noWindow :=
  ⟨(@C3_watermark_window Nat 5 100).1 (by decide),
   (@C3_watermark_window Nat 99 100).2.2 (by decide) "srv" "sess" []
     (fun _ => PostOutcome.ok none)⟩

/-- Helper: closed form of the generic posting loop from an arbitrary
starting state. -/
theorem generic_run_foldl (init : RunStats) (pages : List (List Ev × PostOutcome)) :
    pages.foldl (fun s pr => generic_post_page s pr.1 pr.2) init =
      ⟨init.totalPosted + (pages.map storedOf).sum,
       init.failedPages + pages.countP (fun pr => !pr.1.isEmpty && postFailed pr.2),
       init.pageNumber + pages.length⟩ := by
  induction pages generalizing init with
  | nil => simp
  | cons p ps ih =>
    rw [List.foldl_cons, ih]
    obtain ⟨page, oc⟩ := p
    obtain ⟨tp, fp, pn⟩ := init
    rcases oc <;> by_cases h : page.isEmpty <;>
      simp [generic_post_page, storedOf, postFailed, h, List.countP_cons] <;> omega

/-- C6: within one run, a failed page post only increments the
failed-page counter: every page in the sequence is still processed
(`page_number` equals the number of pages), the stored total accumulates
the contribution of every successfully posted page regardless of
earlier failures, and the final `failed_pages` equals exactly the number
of non-empty pages whose post failed. -/
theorem C6_page_failure_isolation (pages : List (List Ev × PostOutcome)) :
    (generic_run pages).failedPages =
      pages.countP (fun pr => !pr.1.isEmpty && postFailed pr.2) ∧
    (generic_run pages).pageNumber = pages.length ∧
    (generic_run pages).totalPosted = (pages.map storedOf).sum := by
  unfold generic_run
  rw [generic_run_foldl]
  refine ⟨?_, ?_, ?_⟩ <;> simp

/-- C7 (counterexample): the claim says both posting paths add exactly
the store's returned `stored_count` for each 2xx post, so a one-event
face page accepted by a deduplicating store reporting `stored_count = 0`
should contribute 0 to the run total. On the code, the face-events path
ignores `stored_count` and adds `len(events_to_post)`: the run total
becomes 1, not 0. -/
theorem C7_counterexample :
    (face_events_run "srv"
        [([RawAppearance.dict (some "2024-01-01T00:00:00Z") (some "cam-1")],
          PostOutcome.ok (some 0))]).1.totalPosted = 1 ∧
    ¬ (face_events_run "srv"
        [([RawAppearance.dict (some "2024-01-01T00:00:00Z") (some "cam-1")],
          PostOutcome.ok (some 0))]).1.totalPosted = 0 := by
  constructor
  · rfl
  · decide

/-- C7 (amended): for each 2xx post, the generic-events path adds exactly
the store's returned `stored_count` (so re-posting an all-duplicate page
to a deduplicating store reporting `stored_count = 0` leaves its
accumulated total unchanged), while the face-events path adds the number
of transformed events it transmitted, ignoring the store's
`stored_count` entirely. -/
theorem C7_stored_count_accumulation (sc : Nat) (page : List Ev) (stats : RunStats)
    (apage : List RawAppearance) (sid : String) (acc : List (List TransformedEvent))
    (hp : page.isEmpty = false)
    (ha : (apage.filterMap (transformAppearance sid)).isEmpty = false) :
    (generic_post_page stats page (PostOutcome.ok (some sc))).totalPosted =
      stats.totalPosted + sc ∧
    (face_post_page sid (stats, acc) apage (PostOutcome.ok (some sc))).1.totalPosted =
      stats.totalPosted + (apage.filterMap (transformAppearance sid)).length := by
  constructor
  · simp [generic_post_page, hp]
  · have hne : apage.isEmpty = false := by
      cases apage with
      | nil => simp at ha
      | cons a l => rfl
    simp [face_post_page, hne, ha]

/-- C7 witness: with `stored_count = 0` reported for a one-event page,
the generic path adds 0 and the face path adds 1. -/
theorem C7_stored_count_accumulation_witness :
    (generic_post_page ⟨0, 0, 0⟩ [(7 : Nat)] (PostOutcome.ok (some 0))).totalPosted = 0 + 0 ∧
    (face_post_page "srv" (⟨0, 0, 0⟩, [])
        [RawAppearance.dict (some "2024-01-01T00:00:00Z") (some "cam-1")]
        (PostOutcome.ok (some 0))).1.totalPosted =
      0 + ([RawAppearance.dict (some "2024-01-01T00:00:00Z") (some "cam-1")].filterMap
            (transformAppearance "srv")).length :=
  C7_stored_count_accumulation 0 [(7 : Nat)] ⟨0, 0, 0⟩
    [RawAppearance.dict (some "2024-01-01T00:00:00Z") (some "cam-1")] "srv" []
    (by decide) (by decide)

/-- C10: in the face-events transformation, a non-dict list element and a
record with a missing (or falsy) `timestamp` are dropped: they never
appear in a posted batch, a page step never counts them toward the stored
total or the failed-page counter, a page whose records are all dropped
issues no POST at all and leaves every counter except the page number
unchanged, and dropping a record from a page leaves the page's entire
posting behavior identical to the page without it. -/
theorem C10_timestampless_records_dropped (sid : String) (stats : RunStats)
    (acc : List (List TransformedEvent)) :
    transformAppearance sid RawAppearance.nonDict = none ∧
    (∀ gid, transformAppearance sid (RawAppearance.dict none gid) = none) ∧
    (∀ page outcome, (page.filterMap (transformAppearance sid)).isEmpty = true →
      face_post_page sid (stats, acc) page outcome =
        (⟨stats.totalPosted, stats.failedPages, stats.pageNumber + 1⟩, acc)) ∧
    (∀ r page outcome, transformAppearance sid r = none →
      (face_post_page sid (stats, acc) (r :: page) outcome).1.totalPosted =
          (face_post_page sid (stats, acc) page outcome).1.totalPosted ∧
      (face_post_page sid (stats, acc) (r :: page) outcome).1.failedPages =
          (face_post_page sid (stats, acc) page outcome).1.failedPages ∧
      (face_post_page sid (stats, acc) (r :: page) outcome).2 =
          (face_post_page sid (stats, acc) page outcome).2) := by
  refine ⟨rfl, fun gid => rfl, ?_, ?_⟩
  · intro page outcome hdrop
    cases hpe : page.isEmpty with
    | true => simp [face_post_page, hpe]
    | false => simp [face_post_page, hpe, hdrop]
  · intro r page outcome hr
    have hfm : (r :: page).filterMap (transformAppearance sid) =
        page.filterMap (transformAppearance sid) := by
      simp [List.filterMap_cons, hr]
    cases hpe : page.isEmpty with
    | true =>
      have : page = [] := by simpa using hpe
      subst this
      simp only [hr, List.filterMap_cons] at hfm
      simp [face_post_page, hfm, hr]
    | false =>
      have hpe2 : (r :: page).isEmpty = false := rfl
      cases hde : (page.filterMap (transformAppearance sid)).isEmpty with
      | true => simp [face_post_page, hpe, hpe2, hfm, hde]
      | false =>
        rcases outcome <;> simp [face_post_page, hpe, hpe2, hfm, hde]

/-- C10 witness: a page consisting of one non-dict element and one
timestamp-less record posts nothing — counters unchanged, page number
advanced, no POST body emitted. -/
theorem C10_timestampless_records_dropped_witness :
    face_post_page "srv" (⟨3, 1, 5⟩, [])
        [RawAppearance.nonDict, RawAppearance.dict none (some "cam-1")]
        (PostOutcome.ok (some 9)) = (⟨3, 1, 6⟩, []) :=
  (C10_timestampless_records_dropped "srv" ⟨3, 1, 5⟩ []).2.2.1
    [RawAppearance.nonDict, RawAppearance.dict none (some "cam-1")]
    (PostOutcome.ok (some 9)) (by decide)

/-- C8: along the fetcher's request/response trace, every request after
the initial one is exactly the continuation params built from the token
of the immediately preceding response (the value last received), and
every `CONTINUE` request carries no `serverId`, no `from`, no `to` and
no `limit` — only a token (besides the session and query type). -/
theorem C8_continuation_requests_token_only (sid sess : String) (f t : Int) (lim : Nat)
    (script : List (PageResponse Ev)) :
    List.Chain' (fun a b => ∃ tok, a.2.token = some tok ∧ b.1 = contParams sess tok)
      (fetch_events_with_token_pagination sid sess f t lim script).1 ∧
    ∀ p ∈ (fetch_events_with_token_pagination sid sess f t lim script).1,
      p.1.queryType = "CONTINUE" →
        p.1.serverId = none ∧ p.1.fromTime = none ∧ p.1.toTime = none ∧
        p.1.limit = none ∧ ∃ tok, p.1.token = some tok := by
  have h := runFetch_trace_chain sess script (initialParams sid sess f t lim)
  refine ⟨h.1, ?_⟩
  intro p hp hq
  rcases h.2 p hp with h1 | ⟨tok, h2⟩
  · rw [h1] at hq
    exact absurd hq (by simp [initialParams])
  · rw [h2]
    exact ⟨rfl, rfl, rfl, rfl, tok, rfl⟩

/-- C8 witness: with a concrete two-response script the second issued
request is the continuation request carrying the first response's token
and nothing else; its fields are as the theorem states. -/
theorem C8_continuation_requests_token_only_witness :
    (contParams "sess" "tk").serverId = none ∧ (contParams "sess" "tk").fromTime = none ∧
    (contParams "sess" "tk").toTime = none ∧ (contParams "sess" "tk").limit = none ∧
    ∃ tok, (contParams "sess" "tk").token = some tok :=
  (C8_continuation_requests_token_only "sid" "sess" 0 10 100
      [⟨true, [(1 : Nat)], some "tk"⟩, ⟨true, [2], none⟩]).2
    (contParams "sess" "tk", ⟨true, [2], none⟩) (by decide) (by decide)

/-- Helper: whatever the oracle answers, each face's processing yields a
result whose status is one of the five terminal status strings; and when
the confidence gate passes, the status is not the low-confidence skip and
the first external call performed is the vector search. -/
theorem process_single_face_shape (d : FaceDetail) (o : FaceOracle) :
    (process_single_face d o).1.status ∈
      (["skipped_low_confidence", "matched", "error", "skipped_low_quality",
        "indexed"] : List String) ∧
    (¬ d.confidence.getD 0 < confThreshold →
      (process_single_face d o).1.status ≠ "skipped_low_confidence" ∧
      (process_single_face d o).2.head? = some ExtCall.searchCall) := by
  obtain ⟨s, ul, ic, cu, av, cc, nid⟩ := o
  by_cases h : d.confidence.getD 0 < confThreshold
  · constructor
    · simp [process_single_face, h]
    · intro h'; exact absurd h h'
  · have hgoal :
        (process_single_face d ⟨s, ul, ic, cu, av, cc, nid⟩).1.status ∈
          (["skipped_low_confidence", "matched", "error", "skipped_low_quality",
            "indexed"] : List String) ∧
        (process_single_face d ⟨s, ul, ic, cu, av, cc, nid⟩).1.status ≠
          "skipped_low_confidence" ∧
        (process_single_face d ⟨s, ul, ic, cu, av, cc, nid⟩).2.head? =
          some ExtCall.searchCall := by
      rcases s with ⟨resp, serr⟩ | m
      · rcases hm : firstMatch resp with _ | fm
        · rcases ic with ⟨iresp, ierr⟩ | im
          · rcases hr : firstRecord iresp with _ | rec
            · simp [process_single_face, h, hm, hr]
            · obtain ⟨fid, imid, cf⟩ := rec
              rcases fid with _ | fid
              · simp [process_single_face, h, hm, hr]
              · obtain ⟨cb, ce⟩ := cu
                obtain ⟨ab, ae⟩ := av
                obtain ⟨zb, ze⟩ := cc
                cases cb <;> cases ab <;> cases zb <;>
                  simp [process_single_face, h, hm, hr]
          · simp [process_single_face, h, hm]
        · rcases ul with doc | msg | _ <;>
            simp [process_single_face, h, hm]
      · simp [process_single_face, h]
    exact ⟨hgoal.1, fun _ => hgoal.2⟩

/-- C4: a face whose detection confidence is exactly 90.0 proceeds past
the confidence gate — its status is not the low-confidence skip and the
vector search is performed as its first external call — while a face at
89.99 yields the low-confidence-skipped result with no external call
made at all, whatever the external world would have answered. -/
theorem C4_confidence_gate (o : FaceOracle) :
    ((process_single_face ⟨some 90⟩ o).1.status ≠ "skipped_low_confidence" ∧
      (process_single_face ⟨some 90⟩ o).2.head? = some ExtCall.searchCall) ∧
    ((process_single_face ⟨some (8999 / 100 : Rat)⟩ o).1.status = "skipped_low_confidence" ∧
      (process_single_face ⟨some (8999 / 100 : Rat)⟩ o).2 = []) := by
  constructor
  · exact (process_single_face_shape ⟨some 90⟩ o).2 (by norm_num [confThreshold])
  · constructor
    · simp [process_single_face, confThreshold]
      norm_num
    · simp [process_single_face, confThreshold]
      norm_num

/-- C5: when the vector search returns a match (the first entry of a
non-empty `FaceMatches` list) and the identity store lookup finds the
owning user, the face resolves to the `matched` terminal state, and the
only external calls made are the search and the user lookup — the index
operation and all three identity-creation steps are never invoked. -/
theorem C5_match_short_circuits_indexing (d : FaceDetail) (o : FaceOracle)
    (fm : FaceMatchRec) (ms : List FaceMatchRec) (doc : UserDoc) (err : Option String)
    (hconf : ¬ d.confidence.getD 0 < confThreshold)
    (hsearch : o.search = AwsCall.ret (some ⟨fm :: ms⟩) err)
    (hlookup : o.userLookup = UserLookupRes.found doc) :
    (process_single_face d o).1.status = "matched" ∧
    (process_single_face d o).1.userId = doc.idField ∧
    (process_single_face d o).1.faceId = some fm.faceId ∧
    (process_single_face d o).2 = [ExtCall.searchCall, ExtCall.lookupCall] := by
  unfold process_single_face
  rw [if_neg hconf, hsearch]
  simp [firstMatch, hlookup]

/-- C5 witness: a concrete 95%-similarity match whose user exists in the
store resolves to `matched` with only the search and lookup calls. -/
theorem C5_match_short_circuits_indexing_witness :
    (process_single_face ⟨some 99⟩
        ⟨AwsCall.ret (some ⟨[⟨"face-1", none, 95⟩]⟩) none, UserLookupRes.found ⟨some "user-1"⟩,
         AwsCall.ret none none, (true, none), (true, none), (true, none), "u-new"⟩).1.status =
      "matched" ∧
    (process_single_face ⟨some 99⟩
        ⟨AwsCall.ret (some ⟨[⟨"face-1", none, 95⟩]⟩) none, UserLookupRes.found ⟨some "user-1"⟩,
         AwsCall.ret none none, (true, none), (true, none), (true, none), "u-new"⟩).1.userId =
      (⟨some "user-1"⟩ : UserDoc).idField ∧
    (process_single_face ⟨some 99⟩
        ⟨AwsCall.ret (some ⟨[⟨"face-1", none, 95⟩]⟩) none, UserLookupRes.found ⟨some "user-1"⟩,
         AwsCall.ret none none, (true, none), (true, none), (true, none), "u-new"⟩).1.faceId =
      some (⟨"face-1", none, 95⟩ : FaceMatchRec).faceId ∧
    (process_single_face ⟨some 99⟩
        ⟨AwsCall.ret (some ⟨[⟨"face-1", none, 95⟩]⟩) none, UserLookupRes.found ⟨some "user-1"⟩,
         AwsCall.ret none none, (true, none), (true, none), (true, none), "u-new"⟩).2 =
      [ExtCall.searchCall, ExtCall.lookupCall] :=
  C5_match_short_circuits_indexing ⟨some 99⟩
    ⟨AwsCall.ret (some ⟨[⟨"face-1", none, 95⟩]⟩) none, UserLookupRes.found ⟨some "user-1"⟩,
     AwsCall.ret none none, (true, none), (true, none), (true, none), "u-new"⟩
    ⟨"face-1", none, 95⟩ [] ⟨some "user-1"⟩ none (by norm_num [confThreshold]) rfl rfl

/-- C1: for a face that reaches identity creation (no vector match, a
successful index returning a face id), the three creation steps run
strictly in order and a failure at any step skips every later step,
yielding the inconsistent-error terminal result whose failure detail
aggregates each step's error or skipped marker. In particular (first
conjunct) an association failure yields the error state containing the
association error, the system-of-record creation is never attempted and
its slot carries the skipped marker; (second conjunct) a create-user
failure skips both later steps; (third conjunct) a system-of-record
failure after two successes aggregates its error after two `None`s. -/
theorem C1_identity_creation_sequencing :
    (∀ (d : FaceDetail) (o : FaceOracle) (fid e : String),
      ¬ d.confidence.getD 0 < confThreshold →
      o.search = AwsCall.ret (some ⟨[]⟩) none →
      o.indexFacesCall = AwsCall.ret (some ⟨[⟨some fid, none, none⟩]⟩) none →
      o.createUser = (true, none) →
      o.associate = (false, some e) →
      (process_single_face d o).1.status = "error" ∧
      (process_single_face d o).1.errorMessage =
        some ("Failed to create and associate new user for FaceId " ++ fid ++ ".") ∧
      (process_single_face d o).1.failureReason =
        some ("Rekognition CreateUser error: " ++ "None" ++
          ". Rekognition AssociateFaces error: " ++ e ++
          ". Central API CreateUser error: " ++ "Skipped due to Rekognition failure" ++ ".") ∧
      (process_single_face d o).2 =
        [ExtCall.searchCall, ExtCall.indexCall, ExtCall.createUserCall,
         ExtCall.associateCall]) ∧
    (∀ (d : FaceDetail) (o : FaceOracle) (fid e : String),
      ¬ d.confidence.getD 0 < confThreshold →
      o.search = AwsCall.ret (some ⟨[]⟩) none →
      o.indexFacesCall = AwsCall.ret (some ⟨[⟨some fid, none, none⟩]⟩) none →
      o.createUser = (false, some e) →
      (process_single_face d o).1.status = "error" ∧
      (process_single_face d o).1.failureReason =
        some ("Rekognition CreateUser error: " ++ e ++
          ". Rekognition AssociateFaces error: " ++ "Skipped due to user creation failure" ++
          ". Central API CreateUser error: " ++ "Skipped due to Rekognition failure" ++ ".") ∧
      (process_single_face d o).2 =
        [ExtCall.searchCall, ExtCall.indexCall, ExtCall.createUserCall]) ∧
    (∀ (d : FaceDetail) (o : FaceOracle) (fid e : String),
      ¬ d.confidence.getD 0 < confThreshold →
      o.search = AwsCall.ret (some ⟨[]⟩) none →
      o.indexFacesCall = AwsCall.ret (some ⟨[⟨some fid, none, none⟩]⟩) none →
      o.createUser = (true, none) →
      o.associate = (true, none) →
      o.centralCreate = (false, some e) →
      (process_single_face d o).1.status = "error" ∧
      (process_single_face d o).1.failureReason =
        some ("Rekognition CreateUser error: " ++ "None" ++
          ". Rekognition AssociateFaces error: " ++ "None" ++
          ". Central API CreateUser error: " ++ e ++ ".") ∧
      (process_single_face d o).2 =
        [ExtCall.searchCall, ExtCall.indexCall, ExtCall.createUserCall,
         ExtCall.associateCall, ExtCall.centralCreateCall]) := by
  refine ⟨?_, ?_, ?_⟩
  · intro d o fid e hconf hsearch hindex hcreate hassoc
    unfold process_single_face
    rw [if_neg hconf, hsearch, hindex]
    simp [firstMatch, firstRecord, hcreate, hassoc, pyOptStr]
  · intro d o fid e hconf hsearch hindex hcreate
    unfold process_single_face
    rw [if_neg hconf, hsearch, hindex]
    simp [firstMatch, firstRecord, hcreate, pyOptStr]
  · intro d o fid e hconf hsearch hindex hcreate hassoc hcentral
    unfold process_single_face
    rw [if_neg hconf, hsearch, hindex]
    simp [firstMatch, firstRecord, hcreate, hassoc, hcentral, pyOptStr]

/-- C1 witness: a concrete run — no match, index returns face id `f-1`,
create-user succeeds, association fails with `assoc boom` — ends in the
error state aggregating `None`, the association error and the skipped
marker, with no system-of-record creation call in the trace. -/
theorem C1_identity_creation_sequencing_witness :
    (process_single_face ⟨some 95⟩
        ⟨AwsCall.ret (some ⟨[]⟩) none, UserLookupRes.notFound,
         AwsCall.ret (some ⟨[⟨some "f-1", none, none⟩]⟩) none,
         (true, none), (false, some "assoc boom"), (true, none), "u-1"⟩).1.status = "error" ∧
    (process_single_face ⟨some 95⟩
        ⟨AwsCall.ret (some ⟨[]⟩) none, UserLookupRes.notFound,
         AwsCall.ret (some ⟨[⟨some "f-1", none, none⟩]⟩) none,
         (true, none), (false, some "assoc boom"), (true, none), "u-1"⟩).1.errorMessage =
      some ("Failed to create and associate new user for FaceId " ++ "f-1" ++ ".") ∧
    (process_single_face ⟨some 95⟩
        ⟨AwsCall.ret (some ⟨[]⟩) none, UserLookupRes.notFound,
         AwsCall.ret (some ⟨[⟨some "f-1", none, none⟩]⟩) none,
         (true, none), (false, some "assoc boom"), (true, none), "u-1"⟩).1.failureReason =
      some ("Rekognition CreateUser error: " ++ "None" ++
        ". Rekognition AssociateFaces error: " ++ "assoc boom" ++
        ". Central API CreateUser error: " ++ "Skipped due to Rekognition failure" ++ ".") ∧
    (process_single_face ⟨some 95⟩
        ⟨AwsCall.ret (some ⟨[]⟩) none, UserLookupRes.notFound,
         AwsCall.ret (some ⟨[⟨some "f-1", none, none⟩]⟩) none,
         (true, none), (false, some "assoc boom"), (true, none), "u-1"⟩).2 =
      [ExtCall.searchCall, ExtCall.indexCall, ExtCall.createUserCall,
       ExtCall.associateCall] :=
  C1_identity_creation_sequencing.1 ⟨some 95⟩
    ⟨AwsCall.ret (some ⟨[]⟩) none, UserLookupRes.notFound,
     AwsCall.ret (some ⟨[⟨some "f-1", none, none⟩]⟩) none,
     (true, none), (false, some "assoc boom"), (true, none), "u-1"⟩
    "f-1" "assoc boom" (by decide) rfl rfl rfl rfl

/-- C9: when full-frame detection succeeds and the image bytes decode,
the resolver returns exactly one structured result per detected face —
the result list's length equals the number of detected faces — and every
result's status is one of the terminal status strings. -/
theorem C9_one_result_per_face (faces : List (FaceDetail × FaceOracle)) :
    (process_all_faces_in_image (Except.ok faces) none).length = faces.length ∧
    ∀ r ∈ process_all_faces_in_image (Except.ok faces) none,
      r.status ∈ (["skipped_low_confidence", "matched", "error", "skipped_low_quality",
        "indexed"] : List String) := by
  constructor
  · unfold process_all_faces_in_image
    cases hfe : faces.isEmpty with
    | true => simp [List.isEmpty_iff.mp hfe]
    | false => simp [hfe]
  · intro r hr
    unfold process_all_faces_in_image at hr
    cases hfe : faces.isEmpty with
    | true => simp [hfe] at hr
    | false =>
      simp only [hfe, Bool.false_eq_true, if_false, List.mem_map] at hr
      obtain ⟨⟨d, o⟩, hmem, hre⟩ := hr
      rw [← hre]
      exact (process_single_face_shape d o).1

/-- C9 witness: a single low-confidence face yields a one-element result
list whose status is among the terminal statuses. -/
theorem C9_one_result_per_face_witness :
    (process_all_faces_in_image
        (Except.ok [(⟨some 50⟩, ⟨AwsCall.ret none none, UserLookupRes.notFound,
          AwsCall.ret none none, (true, none), (true, none), (true, none), "u"⟩)])
        none).length = 1 ∧
    (⟨"skipped_low_confidence", none, none, none, none⟩ : FaceResult).status ∈
      (["skipped_low_confidence", "matched", "error", "skipped_low_quality",
        "indexed"] : List String) :=
  ⟨(C9_one_result_per_face [(⟨some 50⟩, ⟨AwsCall.ret none none, UserLookupRes.notFound,
      AwsCall.ret none none, (true, none), (true, none), (true, none), "u"⟩)]).1,
   (C9_one_result_per_face [(⟨some 50⟩, ⟨AwsCall.ret none none, UserLookupRes.notFound,
      AwsCall.ret none none, (true, none), (true, none), (true, none), "u"⟩)]).2
     ⟨"skipped_low_confidence", none, none, none, none⟩ (by decide)⟩

end DukeBackend
